import Mathlib

/-!
Shallow embedding of the buttercup Discord bot queue and lookup cogs
(src/buttercup/cogs/queue.py and src/buttercup/cogs/lookup.py), with proofs
about the paginated fetcher, the queue snapshot cache, the user cache
rebuild, the live target registry, the renderer glue and the lookup command.

Remote HTTP calls are modelled as pure response functions passed in as
parameters; Python exceptions are modelled with an explicit error type, and
the unbounded fetch loop is modelled with fuel (a result of none means the
loop was still running after the given number of pages).
-/

set_option maxRecDepth 8192

-- Decidable equality for Except results, used to evaluate the embedded
-- fallible operations on concrete inputs.
deriving instance DecidableEq for Except

/-- Whether the first list is a prefix of the second. This and the helpers
below are kernel computable replacements for the string primitives the
embedding needs (split, endswith), written by structural recursion so that
concrete runs of the embedded code can be checked by decide. -/
def listStartsWith : List Char → List Char → Bool
  | [], _ => true
  | _ :: _, [] => false
  | p :: ps, c :: cs => if p = c then listStartsWith ps cs else false

/-- Fuel bounded splitting of a character list on a nonempty separator; the
fuel is instantiated with the length of the list plus one, which always
suffices. -/
def splitAux (sep : List Char) : Nat → List Char → List Char → List (List Char)
  | 0, s, acc => [acc.reverse ++ s]
  | fuel + 1, s, acc =>
    match s with
    | [] => [acc.reverse]
    | c :: cs =>
      if listStartsWith sep s then
        acc.reverse :: splitAux sep fuel (s.drop sep.length) []
      else splitAux sep fuel cs (c :: acc)

/-- Python str.split with a nonempty separator: split into the parts between
occurrences of the separator, keeping empty parts. -/
def strSplitOn (s sep : String) : List String :=
  (splitAux sep.data (s.data.length + 1) s.data []).map (fun l => String.mk l)

/-- Python str.endswith. -/
def strEndsWith (s suffix : String) : Bool :=
  listStartsWith suffix.data.reverse s.data.reverse

/-- A volunteer record as returned by the volunteer endpoint; the code only
reads the username field. -/
structure User where
  username : String
deriving DecidableEq

/-- A submission record as served by the submission endpoint. Only the fields
the code reads are modelled; timestamps are modelled as natural numbers. -/
structure Submission where
  id : Nat
  url : String
  tor_url : String
  source : String
  claimed_by : Option String
  claim_time : Option Nat
deriving DecidableEq

/-- A response to a GET submission/ request: an ok flag and the result
records of the page. -/
structure PageResponse where
  ok : Bool
  results : List Submission
deriving DecidableEq

/-- A response to a GET volunteer request. -/
structure UserResponse where
  ok : Bool
  results : List User
deriving DecidableEq

/-- The query parameters of a GET submission/ request issued by the fetch
loops in queue.py. -/
structure SubmissionRequest where
  page_size : Nat
  page : Nat
  completed_by__isnull : Bool
  claimed_by__isnull : Bool
  archived : Bool
  create_time__gte : Nat
  ordering : Option String
deriving DecidableEq

/-- The remote Blossom API: submission pages and volunteer lookups. -/
structure Blossom where
  submissions : SubmissionRequest → PageResponse
  volunteer : String → UserResponse

/-- Python exceptions raised by the embedded code. BlossomException carries
the failing response, as in the source; the pandas and builtin exceptions
carry the offending key or message. -/
inductive PyErr where
  | blossomExceptionPage (resp : PageResponse)
  | blossomExceptionUser (resp : UserResponse)
  | keyError (key : String)
  | attributeError (attr : String)
  | indexError (msg : String)
  | typeError (msg : String)
  | notFound (what : String)
deriving DecidableEq

/-- Modelled from the spec: get_submission_source from the helpers module
(which is not under src) derives the source as the subreddit name extracted
from the submission originating URL. -/
def get_submission_source (submission : Submission) : String :=
  match strSplitOn submission.url "/r/" with
  | _ :: rest :: _ => (strSplitOn rest "/").headD rest
  | _ => submission.url

/-- fix_submission_source: return the record with the source field replaced
by the subreddit of the submission. -/
def fix_submission_source (submission : Submission) : Submission :=
  { submission with source := get_submission_source submission }

/-- extract_user_id: user_url.split("/")[-2]. Python raises IndexError when
the URL has fewer than two slash separated parts. -/
def extract_user_id (user_url : String) : Except PyErr String :=
  let parts := strSplitOn user_url "/"
  match parts.get? (parts.length - 2) with
  | some s => Except.ok s
  | none => Except.error (PyErr.indexError "list index out of range")

/-- A pandas DataFrame of submissions indexed by id, modelled as its ordered
list of rows. -/
structure Table where
  rows : List Submission
deriving DecidableEq

/-- pandas DataFrame.from_records with index given by the id column: locating
the index column raises KeyError when the record list is empty, because an
empty frame has no columns. -/
def from_records (results : List Submission) : Except PyErr Table :=
  if results.isEmpty then Except.error (PyErr.keyError "id")
  else Except.ok { rows := results }

/-- The request issued on each iteration of get_unclaimed_submissions. -/
def unclaimedRequest (queue_start : Nat) (page : Nat) : SubmissionRequest :=
  { page_size := 500, page := page, completed_by__isnull := true,
    claimed_by__isnull := true, archived := false,
    create_time__gte := queue_start, ordering := none }

/-- The request issued on each iteration of get_claimed_submissions. -/
def claimedRequest (queue_start : Nat) (page : Nat) : SubmissionRequest :=
  { page_size := 500, page := page, completed_by__isnull := true,
    claimed_by__isnull := false, archived := false,
    create_time__gte := queue_start, ordering := some "-claim_time" }

/-- The paginated fetch loop shared by both fetches of queue.py: request the
current page, raise on a non ok response, accumulate the normalized records
and stop after the first page shorter than the page size. The loop also
records the requests it issued. Fuel bounds the number of iterations; none
means the loop was still running when the fuel ran out. -/
def fetchLoop (api : SubmissionRequest → PageResponse) (mkReq : Nat → SubmissionRequest)
    (size : Nat) :
    Nat → Nat → List SubmissionRequest → List Submission →
    Option (Except PyErr (List SubmissionRequest × List Submission))
  | 0, _, _, _ => none
  | fuel + 1, page, reqs, results =>
    let queue_response := api (mkReq page)
    let reqs := reqs ++ [mkReq page]
    if queue_response.ok = false then
      some (Except.error (PyErr.blossomExceptionPage queue_response))
    else
      let data := queue_response.results.map fix_submission_source
      let results := results ++ data
      if data.length < size then some (Except.ok (reqs, results))
      else fetchLoop api mkReq size fuel (page + 1) reqs results

/-- The concatenation, in page order, of the normalized records of cnt pages
starting at the given page. -/
def pagesJoin (api : SubmissionRequest → PageResponse) (mkReq : Nat → SubmissionRequest)
    (page cnt : Nat) : List Submission :=
  ((List.range' page cnt).map (fun j => (api (mkReq j)).results.map fix_submission_source)).flatten

/-- get_unclaimed_submissions: fetch all unclaimed posts newer than 18 hours,
500 records per page, and index them by id. -/
def get_unclaimed_submissions (api : Blossom) (now fuel : Nat) :
    Option (Except PyErr Table) :=
  let queue_start := now - 18 * 3600
  match fetchLoop api.submissions (unclaimedRequest queue_start) 500 fuel 1 [] [] with
  | none => none
  | some (Except.error e) => some (Except.error e)
  | some (Except.ok (_, results)) => some (from_records results)

/-- get_claimed_submissions: fetch all claimed posts newer than 48 hours in
descending claim time order, 500 records per page, and index them by id. -/
def get_claimed_submissions (api : Blossom) (now fuel : Nat) :
    Option (Except PyErr Table) :=
  let queue_start := now - 48 * 3600
  match fetchLoop api.submissions (claimedRequest queue_start) 500 fuel 1 [] [] with
  | none => none
  | some (Except.error e) => some (Except.error e)
  | some (Except.ok (_, results)) => some (from_records results)

/-- The user cache: a Python dict modelled as an insertion ordered
association list. -/
abbrev UserCache := List (String × User)

/-- Dictionary lookup, as Python dict.get. -/
def dictGet : UserCache → String → Option User
  | [], _ => none
  | p :: rest, k => if p.1 = k then some p.2 else dictGet rest k

/-- Dictionary assignment, as Python dict item assignment: replace the entry
in place, keeping insertion order, or append a new entry at the end. -/
def dictSet : UserCache → String → User → UserCache
  | [], k, v => [(k, v)]
  | p :: rest, k, v => if p.1 = k then (k, v) :: rest else p :: dictSet rest k v

/-- The keys of the cache, in insertion order. -/
def dictKeys (d : UserCache) : List String := d.map (fun p => p.1)

/-- The carry forward step of update_user_cache: if the old cache holds an
entry for the claimant, copy it into the cache being built as a placeholder. -/
def carryOld (old_cache user_cache : UserCache) (user_id : String) : UserCache :=
  match dictGet old_cache user_id with
  | some user => dictSet user_cache user_id user
  | none => user_cache

/-- The loop of update_user_cache over the top five claimed submissions:
extract the claimant id, carry a stale entry over from the old cache if one
exists, then fetch the user and overwrite the entry; any failure aborts the
whole rebuild. -/
def update_user_cache_go (volunteer : String → UserResponse) (old_cache : UserCache) :
    List Submission → UserCache → Except PyErr UserCache
  | [], user_cache => Except.ok user_cache
  | submission :: rest, user_cache =>
    match submission.claimed_by with
    | none => Except.error (PyErr.attributeError "split")
    | some claimed_by =>
      match extract_user_id claimed_by with
      | Except.error e => Except.error e
      | Except.ok user_id =>
        if (volunteer user_id).ok = false then
          Except.error (PyErr.blossomExceptionUser (volunteer user_id))
        else
          match (volunteer user_id).results with
          | [] => Except.error (PyErr.indexError "list index out of range")
          | user :: _ =>
            update_user_cache_go volunteer old_cache rest
              (dictSet (carryOld old_cache user_cache user_id) user_id user)

/-- update_user_cache: rebuild the cache from the top five claimed
submissions, committing the new cache only if every lookup succeeded. -/
def update_user_cache (volunteer : String → UserResponse) (claimed : Table)
    (old_cache : UserCache) : Except PyErr UserCache :=
  update_user_cache_go volunteer old_cache (claimed.rows.take 5) []

/-- A live target: a previously sent Discord message; editOk models whether
editing it succeeds (false when the external destination vanished). -/
structure Target where
  tid : Nat
  editOk : Bool
deriving DecidableEq

/-- The mutable state of the Queue cog. -/
structure QueueState where
  last_update : Nat
  unclaimed : Option Table
  claimed : Option Table
  user_cache : UserCache
  messages : List Target
deriving DecidableEq

/-- The state set up by the constructor of the Queue cog, before the first
update cycle has run. -/
def initState (now : Nat) : QueueState :=
  { last_update := now, unclaimed := none, claimed := none,
    user_cache := [], messages := [] }

/-- add_message: keep the last four registered targets and append the new
one, enforcing the limit of five kept targets. -/
def add_message (s : QueueState) (msg : Target) : QueueState :=
  let limit := 5
  { s with messages := s.messages.drop (s.messages.length - (limit - 1)) ++ [msg] }

/-- Modelled from the spec: the unclaimed list entry template from the i18n
strings module, which is not under src: a per source post count line. -/
def unclaimed_list_entry (count : Nat) (source : String) : String :=
  toString count ++ " in r/" ++ source

/-- Modelled from the spec: the unclaimed list remainder template: the
trailing and N others line of the source breakdown. -/
def unclaimed_list_others (post_count source_count : Nat) : String :=
  "and " ++ toString post_count ++ " more posts in " ++ toString source_count ++ " other sources"

/-- Modelled from the spec: the claimed list entry template: one formatted
claimed submission line. -/
def claimed_list_entry (author source url time : String) : String :=
  author ++ " is working on a post from r/" ++ source ++ " <" ++ url ++ "> " ++ time

/-- Modelled from the spec: the claimed list remainder template: the trailing
N other notice. -/
def claimed_list_others (other_count : Nat) : String :=
  "and " ++ toString other_count ++ " other"

/-- Modelled from the spec: the queue cleared message for the unclaimed list. -/
def unclaimed_message_cleared : String := "The unclaimed queue has been cleared"

/-- Modelled from the spec: the unclaimed count plus breakdown message. -/
def unclaimed_message_tpl (unclaimed_count : Nat) (unclaimed_list : String) : String :=
  "There are " ++ toString unclaimed_count ++ " unclaimed posts\n" ++ unclaimed_list

/-- Modelled from the spec: the queue cleared message for the claimed list. -/
def claimed_message_cleared : String := "The claimed queue has been cleared"

/-- Modelled from the spec: the claimed count plus list message. -/
def claimed_message_tpl (claimed_count : Nat) (claimed_list : String) : String :=
  "There are " ++ toString claimed_count ++ " claimed posts\n" ++ claimed_list

/-- Modelled from the spec: the embed title of the queue status message. -/
def embed_title : String := "Queue Status"

/-- Modelled from the spec: the embed description template. -/
def embed_description_tpl (unclaimed_message claimed_message : String) : String :=
  unclaimed_message ++ "\n\n" ++ claimed_message

/-- Modelled from the spec: the message content template naming the last
update time. -/
def embed_message_tpl (last_updated : String) : String :=
  "Last updated " ++ last_updated

/-- Modelled from the spec: get_discord_time_str from the helpers module (not
under src) renders a Discord time marker for a timestamp and style. -/
def get_discord_time_str (date_time : Nat) (style : String) : String :=
  "<t:" ++ toString date_time ++ ":" ++ style ++ ">"

/-- Modelled: dateutil.parser.parse is third party; timestamps are modelled
as natural numbers, so parsing the stored value is the identity. -/
def dateutil_parse (time_str : Nat) : Nat := time_str

/-- Modelled: the completed color constant from the find cog, not under src. -/
def COMPLETED_COLOR : Nat := 0

/-- Modelled: the in progress color constant from the find cog, not under src. -/
def IN_PROGRESS_COLOR : Nat := 1

/-- Modelled: the unclaimed color constant from the find cog, not under src. -/
def UNCLAIMED_COLOR : Nat := 2

/-- get_claimed_item: format one claimed submission, parsing its claim time
and extracting the claimant, with the cached user as the author when present
and the bare id as a fallback. -/
def get_claimed_item (submission : Submission) (user_cache : UserCache) :
    Except PyErr String :=
  let source := submission.source
  match submission.claim_time with
  | none => Except.error (PyErr.typeError "parser got None")
  | some time_str =>
    match submission.claimed_by with
    | none => Except.error (PyErr.attributeError "split")
    | some author_url =>
      let url := submission.tor_url
      let time := get_discord_time_str (dateutil_parse time_str) "R"
      match extract_user_id author_url with
      | Except.error e => Except.error e
      | Except.ok author_id =>
        let author :=
          match dictGet user_cache author_id with
          | some user => user
          | none => { username := author_id }
        Except.ok (claimed_list_entry ("u/" ++ author.username) source url time)

/-- get_claimed_list: the first five formatted claimed submissions, plus the
remainder notice when more than five exist. -/
def get_claimed_list (claimed : Table) (user_cache : UserCache) :
    Except PyErr String :=
  match (claimed.rows.take 5).mapM (fun submission => get_claimed_item submission user_cache) with
  | Except.error e => Except.error e
  | Except.ok items =>
    let result := String.intercalate "\n" items
    if 5 < claimed.rows.length then
      Except.ok (result ++ "\n" ++ claimed_list_others (claimed.rows.drop 5).length)
    else Except.ok result

/-- get_unclaimed_list: the first five per source lines of the breakdown,
plus the remainder notice when more than five sources exist. -/
def get_unclaimed_list (sources : List (String × Nat)) : String :=
  let items := (sources.take 5).map (fun p => unclaimed_list_entry p.2 p.1)
  let result := String.intercalate "\n" items
  if 5 < sources.length then
    let rest := sources.drop 5
    result ++ "\n" ++ unclaimed_list_others (rest.map (fun p => p.2)).sum rest.length
  else result

/-- Keys in first occurrence order with duplicates removed, for the groupby
of update_message. -/
def dedupKeys : List String → List String
  | [] => []
  | k :: rest => k :: (dedupKeys rest).filter (fun x => x != k)

/-- Insert a source count pair into a list sorted by descending count. -/
def insertByCountDesc (p : String × Nat) : List (String × Nat) → List (String × Nat)
  | [] => [p]
  | q :: qs => if q.2 < p.2 then p :: q :: qs else q :: insertByCountDesc p qs

/-- Sort source count pairs by descending count (the relative order of tied
counts is not significant, as with the unstable sort pandas uses). -/
def sortByCountDesc : List (String × Nat) → List (String × Nat)
  | [] => []
  | p :: rest => insertByCountDesc p (sortByCountDesc rest)

/-- The groupby source, count and sort_values descending pipeline of
update_message: the per source counts of the unclaimed table, largest count
first. -/
def groupSources (t : Table) : List (String × Nat) :=
  let keys := dedupKeys (t.rows.map (fun s => s.source))
  let pairs := keys.map (fun k => (k, (t.rows.filter (fun s => s.source == k)).length))
  sortByCountDesc pairs

/-- The observable result of a successful update_message: the edited content
and embed of the target message. -/
structure Rendered where
  content : String
  title : String
  description : String
  color : Nat
deriving DecidableEq

/-- update_message: render the current snapshot into the given message. The
initial None tables make the len(...index) accesses raise AttributeError;
a vanished target makes the final edit fail. -/
def update_message (s : QueueState) (msg : Target) : Except PyErr Rendered :=
  match s.unclaimed with
  | none => Except.error (PyErr.attributeError "index")
  | some unclaimed =>
    match s.claimed with
    | none => Except.error (PyErr.attributeError "index")
    | some claimed =>
      let unclaimed_count := unclaimed.rows.length
      let claimed_count := claimed.rows.length
      let sources := groupSources unclaimed
      let unclaimed_list := get_unclaimed_list sources
      let unclaimed_message :=
        if unclaimed_count = 0 then unclaimed_message_cleared
        else unclaimed_message_tpl unclaimed_count unclaimed_list
      match get_claimed_list claimed s.user_cache with
      | Except.error e => Except.error e
      | Except.ok claimed_list =>
        let claimed_message :=
          if claimed_count = 0 then claimed_message_cleared
          else claimed_message_tpl claimed_count claimed_list
        let color :=
          if unclaimed_count = 0 then COMPLETED_COLOR
          else if 0 < claimed_count then IN_PROGRESS_COLOR
          else UNCLAIMED_COLOR
        if msg.editOk then
          Except.ok
            { content := embed_message_tpl (get_discord_time_str s.last_update "R"),
              title := embed_title,
              description := embed_description_tpl unclaimed_message claimed_message,
              color := color }
        else Except.error (PyErr.notFound "message")

/-- The loop of update_messages: update each registered target in turn; the
first exception aborts the loop. Returns the successfully updated targets in
order, and the error that stopped the loop, if any. -/
def update_messages_go (s : QueueState) : List Target → List Target × Option PyErr
  | [] => ([], none)
  | msg :: rest =>
    match update_message s msg with
    | Except.error e => ([], some e)
    | Except.ok _ =>
      let r := update_messages_go s rest
      (msg :: r.1, r.2)

/-- update_messages: push the snapshot to every registered target. -/
def update_messages (s : QueueState) : List Target × Option PyErr :=
  update_messages_go s s.messages

/-- Whether an Except computation succeeded, as a boolean. -/
def exceptOk {e a : Type} : Except e a → Bool
  | Except.ok _ => true
  | Except.error _ => false

/-- update_queue: refresh the cached tables and the user cache, assigning
each field as soon as it is computed, exactly as the source does; the
returned state is the state observable after the attempt, together with the
exception that aborted it, if any. -/
def update_queue (api : Blossom) (now fuel : Nat) (s : QueueState) :
    Option (QueueState × Option PyErr) :=
  match get_unclaimed_submissions api now fuel with
  | none => none
  | some (Except.error e) => some (s, some e)
  | some (Except.ok unclaimed) =>
    let s := { s with unclaimed := some unclaimed }
    match get_claimed_submissions api now fuel with
    | none => none
    | some (Except.error e) => some (s, some e)
    | some (Except.ok claimed) =>
      let s := { s with claimed := some claimed }
      match update_user_cache api.volunteer claimed s.user_cache with
      | Except.error e => some (s, some e)
      | Except.ok user_cache =>
        some ({ s with user_cache := user_cache, last_update := now }, none)

/-- A Python value that is either None or a string, as needed by the lookup
cog where a missing path flows into an f string. -/
inductive Py where
  | pynone
  | pystr (s : String)
deriving DecidableEq

/-- Python str() of such a value, as applied by an f string. -/
def pyStrOf : Py → String
  | Py.pynone => "None"
  | Py.pystr s => s

/-- The parts of urllib.parse.urlparse used by the lookup cog. -/
structure UrlParseResult where
  netloc : String
  path : String
deriving DecidableEq

/-- Python substring containment: s contains pat exactly when splitting on
pat yields more than one part. -/
def strContains (s pat : String) : Bool := (strSplitOn s pat).length != 1

/-- Modelled: urllib.parse.urlparse is the Python standard library; for the
common scheme://netloc/path URLs handled by the lookup cog it yields the
netloc and the path, and a URL without a scheme separator has an empty
netloc and is all path. -/
def urlparse (url : String) : UrlParseResult :=
  match strSplitOn url "://" with
  | [] => { netloc := "", path := url }
  | [_] => { netloc := "", path := url }
  | _scheme :: rest =>
    let r := String.intercalate "://" rest
    match strSplitOn r "/" with
    | [] => { netloc := r, path := "" }
    | [n] => { netloc := n, path := "" }
    | n :: ps => { netloc := n, path := "/" ++ String.intercalate "/" ps }

/-- Lookup._parse_reddit_url: None when the host does not contain reddit,
otherwise the path, normalized to end with a slash. -/
def parse_reddit_url (reddit_url_str : String) : Py :=
  let parse_result := urlparse reddit_url_str
  if strContains parse_result.netloc "reddit" = false then Py.pynone
  else
    let path := parse_result.path
    let path := if strEndsWith path "/" then path else path ++ "/"
    Py.pystr path

/-- An observable step of the lookup command: a sent or edited message, or a
call to the remote API. -/
inductive LookupAction where
  | sent (content : String)
  | edited (content : String)
  | remoteCall (endpoint : String) (arg : String)
deriving DecidableEq

/-- A blossom_wrapper response used by the lookup cog: an ok status and an
optional data list; for transcriptions each element is the submission URL
read from the record. -/
structure LookupResponse where
  statusOk : Bool
  data : Option (List String)
deriving DecidableEq

/-- The remote lookup endpoints used by the lookup cog. -/
structure LookupRemote where
  get_submission_tor_url : String → LookupResponse
  get_transcription_url : String → LookupResponse
  get_submission_id : String → LookupResponse
  get_submission_url : String → LookupResponse

/-- Modelled from the source: the not recognized reply of the lookup command. -/
def notRecognizedMsg (reddit_url : String) : String :=
  "I do not recognize <" ++ reddit_url ++ "> as valid Reddit URL."

/-- Modelled from the source: the not found reply of the lookup command. -/
def notFoundMsg (normalized_url : String) : String :=
  "Sorry, I could not find a post with the URL <" ++ normalized_url ++ ">."

/-- The tail of Lookup._lookup: edit the message with not found when the
response is missing, not ok or empty, and with the found post otherwise. -/
def lookupFinish (acts : List LookupAction) (normalized_url : String)
    (response : Option LookupResponse) : List LookupAction × Option PyErr :=
  match response with
  | none => (acts ++ [LookupAction.edited (notFoundMsg normalized_url)], none)
  | some r =>
    if r.statusOk = false then
      (acts ++ [LookupAction.edited (notFoundMsg normalized_url)], none)
    else
      match r.data with
      | none => (acts ++ [LookupAction.edited (notFoundMsg normalized_url)], none)
      | some [] => (acts ++ [LookupAction.edited (notFoundMsg normalized_url)], none)
      | some (_ :: _) => (acts ++ [LookupAction.edited "I found your post!"], none)

/-- Lookup._lookup: parse the URL, build the normalized URL through an
f string (which renders a missing path as the string None), send the first
message, run the dead is None check on the f string result, then branch on
the path, which raises TypeError when the path is None. -/
def lookup_cmd (api : LookupRemote) (reddit_url : String) :
    List LookupAction × Option PyErr :=
  let path := parse_reddit_url reddit_url
  let normalized_url := Py.pystr ("https://reddit.com" ++ pyStrOf path)
  let acts := [LookupAction.sent ("Looking for post <" ++ pyStrOf normalized_url ++ ">...")]
  if normalized_url = Py.pynone then
    (acts ++ [LookupAction.edited (notRecognizedMsg reddit_url)], none)
  else
    match path with
    | Py.pynone => (acts, some (PyErr.typeError "argument of type NoneType is not iterable"))
    | Py.pystr p =>
      let nurl := pyStrOf normalized_url
      if strContains p "/r/TranscribersOfReddit" then
        let acts := acts ++ [LookupAction.remoteCall "get_submission tor_url" nurl]
        lookupFinish acts nurl (some (api.get_submission_tor_url nurl))
      else if 8 ≤ (strSplitOn p "/").length then
        let acts := acts ++ [LookupAction.remoteCall "get_transcription url" nurl]
        let tr_response := api.get_transcription_url nurl
        if tr_response.statusOk = false then lookupFinish acts nurl none
        else
          match tr_response.data with
          | none => lookupFinish acts nurl none
          | some [] => lookupFinish acts nurl none
          | some (transcription_submission :: _) =>
            let parts := strSplitOn transcription_submission "/"
            match parts.get? (parts.length - 2) with
            | none => (acts, some (PyErr.indexError "list index out of range"))
            | some submission_id =>
              let acts := acts ++ [LookupAction.remoteCall "get_submission id" submission_id]
              lookupFinish acts nurl (some (api.get_submission_id submission_id))
      else
        let acts := acts ++ [LookupAction.remoteCall "get_submission url" nurl]
        lookupFinish acts nurl (some (api.get_submission_url nurl))

/-- A fresh unclaimed submission served by the remote in the test inputs. -/
def subW1 : Submission :=
  { id := 1, url := "https://reddit.com/r/s1/p1/", tor_url := "t1",
    source := "raw", claimed_by := none, claim_time := none }

/-- A previously committed unclaimed submission. -/
def subOldU : Submission :=
  { id := 2, url := "https://reddit.com/r/s2/p2/", tor_url := "t2",
    source := "s2", claimed_by := none, claim_time := none }

/-- A previously committed claimed submission. -/
def subOldC : Submission :=
  { id := 3, url := "https://reddit.com/r/s3/p3/", tor_url := "t3",
    source := "s3", claimed_by := some "v/9/", claim_time := some 4 }

/-- A claimed submission served by the remote in the test inputs. -/
def subClaimedW : Submission :=
  { id := 4, url := "https://reddit.com/r/s4/p4/", tor_url := "t4",
    source := "s4", claimed_by := some "v/7/", claim_time := some 6 }

/-- A remote whose unclaimed fetch succeeds with one short page and whose
claimed fetch answers non ok. -/
def apiC1 : Blossom :=
  { submissions := fun req =>
      if req.claimed_by__isnull then { ok := true, results := [subW1] }
      else { ok := false, results := [] },
    volunteer := fun _ => { ok := true, results := [{ username := "x" }] } }

/-- A committed snapshot state from an earlier successful refresh. -/
def s0C1 : QueueState :=
  { last_update := 5, unclaimed := some { rows := [subOldU] },
    claimed := some { rows := [subOldC] },
    user_cache := [("9", { username := "old9" })], messages := [] }

/-- The state observable after the failed refresh attempt against apiC1: the
unclaimed table has already been replaced. -/
def s1C1 : QueueState :=
  { s0C1 with unclaimed := some { rows := [fix_submission_source subW1] } }

/-- A remote that serves an empty ok first page for every submission query. -/
def apiC3 : Blossom :=
  { submissions := fun _ => { ok := true, results := [] },
    volunteer := fun _ => { ok := true, results := [] } }

/-- A live target whose edit succeeds. -/
def tOk1 : Target := { tid := 1, editOk := true }

/-- A live target whose edit fails: the external destination vanished. -/
def tBad : Target := { tid := 2, editOk := false }

/-- Another live target whose edit succeeds, registered after the bad one. -/
def tOk3 : Target := { tid := 3, editOk := true }

/-- A consistent snapshot state with three registered targets of which
exactly the middle one fails. -/
def gsC2 : QueueState :=
  { last_update := 9, unclaimed := some { rows := [subOldU] },
    claimed := some { rows := [subClaimedW] }, user_cache := [],
    messages := [tOk1, tBad, tOk3] }

/-- A remote serving one short nonempty ok page for each fetch. -/
def apiW4 : Blossom :=
  { submissions := fun req =>
      if req.claimed_by__isnull then { ok := true, results := [subW1] }
      else { ok := true, results := [subClaimedW] },
    volunteer := fun _ => { ok := true, results := [{ username := "x" }] } }

/-- A remote answering non ok to every request. -/
def apiW5 : Blossom :=
  { submissions := fun _ => { ok := false, results := [] },
    volunteer := fun _ => { ok := false, results := [] } }

/-- A volunteer endpoint returning a fresh user for every id. -/
def volW : String → UserResponse := fun user_id =>
  { ok := true, results := [{ username := "f" ++ user_id }] }

/-- A claimed submission by claimant 1. -/
def subCl1 : Submission :=
  { id := 11, url := "u1", tor_url := "t11", source := "s",
    claimed_by := some "v/1/", claim_time := some 1 }

/-- A claimed submission by claimant 2. -/
def subCl2 : Submission :=
  { id := 12, url := "u2", tor_url := "t12", source := "s",
    claimed_by := some "v/2/", claim_time := some 2 }

/-- A second claimed submission by claimant 1. -/
def subCl3 : Submission :=
  { id := 13, url := "u3", tor_url := "t13", source := "s",
    claimed_by := some "v/1/", claim_time := some 3 }

/-- A claimed table with three submissions by two distinct claimants. -/
def claimedW : Table := { rows := [subCl1, subCl2, subCl3] }

/-- An old user cache holding a stale entry for claimant 1. -/
def oldW : UserCache := [("1", { username := "stale1" })]

/-- The cache produced by rebuilding oldW against claimedW and volW. -/
def newW : UserCache := [("1", { username := "f1" }), ("2", { username := "f2" })]

/-- Seven targets registered in sequence. -/
def tsW : List Target :=
  [{ tid := 1, editOk := true }, { tid := 2, editOk := true },
   { tid := 3, editOk := true }, { tid := 4, editOk := true },
   { tid := 5, editOk := true }, { tid := 6, editOk := true },
   { tid := 7, editOk := true }]

/-- A state already holding five registered targets. -/
def sFullW : QueueState :=
  { initState 0 with messages :=
      [{ tid := 1, editOk := true }, { tid := 2, editOk := true },
       { tid := 3, editOk := true }, { tid := 4, editOk := true },
       { tid := 5, editOk := true }] }

/-- A sixth target registered into the full state. -/
def mW : Target := { tid := 99, editOk := true }

/-- Seven unclaimed posts across three sources with counts four, two, one,
grouped and sorted as update_message does. -/
def sourcesC8 : List (String × Nat) := [("s1", 4), ("s2", 2), ("s3", 1)]

/-- One of six claimed submissions, claimant i, for the remainder scenario. -/
def subC8 (i : Nat) : Submission :=
  { id := 20 + i, url := "u", tor_url := "t" ++ toString i, source := "s" ++ toString i,
    claimed_by := some ("v/" ++ toString i ++ "/"), claim_time := some i }

/-- A claimed table with six submissions. -/
def claimedC8 : Table := { rows := [subC8 1, subC8 2, subC8 3, subC8 4, subC8 5, subC8 6] }

/-- A lookup remote that finds nothing, used where no call should happen. -/
def dummyLookupApi : LookupRemote :=
  { get_submission_tor_url := fun _ => { statusOk := false, data := none },
    get_transcription_url := fun _ => { statusOk := false, data := none },
    get_submission_id := fun _ => { statusOk := false, data := none },
    get_submission_url := fun _ => { statusOk := false, data := none } }

/-- C10: rendering a live target from the constructor state, before the
first successful refresh, fails with the AttributeError raised by reading
len of the None unclaimed table, instead of producing a queue status
message. -/
theorem render_before_first_refresh_fails (now : Nat) (msg : Target) :
    update_message (initState now) msg = Except.error (PyErr.attributeError "index") := rfl

/-- C3 (code bug): a refresh that observes an empty ok first page for the
unclaimed fetch does not succeed with a cleared queue snapshot: building the
id indexed frame from zero records raises KeyError, so the whole refresh
attempt aborts with an error and the snapshot is never updated. -/
theorem refresh_empty_queue_raises_keyerror :
    update_queue apiC3 100 1 (initState 7) =
      some (initState 7, some (PyErr.keyError "id")) := by decide

/-- C1 (code bug): a refresh attempt whose claimed fetch answers non ok
leaves the snapshot partially updated: the unclaimed table has already been
replaced with the freshly fetched one, while the claimed table, the user
cache and the last update time still hold their previous values. -/
theorem update_queue_partial_mutation_on_failure :
    update_queue apiC1 100 2 s0C1 =
      some (s1C1, some (PyErr.blossomExceptionPage { ok := false, results := [] })) ∧
    s1C1.unclaimed ≠ s0C1.unclaimed ∧
    s1C1.claimed = s0C1.claimed ∧
    s1C1.user_cache = s0C1.user_cache ∧
    s1C1.last_update = s0C1.last_update := by decide

/-- C9 (code bug): for an input URL whose host does not contain reddit, the
lookup command does not reply with the not recognized message: the is None
guard tests the f string result, which is never None, and the subsequent
containment test on the None path raises TypeError after the first message
was sent; no remote lookup is issued and no reply is edited in. -/
theorem lookup_unparseable_url_crashes :
    lookup_cmd dummyLookupApi "https://example.com/some/post" =
      ([LookupAction.sent "Looking for post <https://reddit.comNone>..."],
       some (PyErr.typeError "argument of type NoneType is not iterable")) := by decide

/-- C2 counterexample: with three registered targets of which exactly the
second fails, the broadcast does not update the remaining two: it updates
only the first target and aborts, leaving the third untouched. -/
theorem broadcast_one_failure_aborts_rest :
    update_messages gsC2 = ([tOk1], some (PyErr.notFound "message")) ∧
    tOk3 ∉ (update_messages gsC2).1 := by decide

/-- C8: with seven unclaimed posts across three sources the breakdown lists
exactly the three source lines and no remainder notice, and with six claimed
submissions the claimed list shows the five formatted entries followed by a
one other remainder notice. -/
theorem rendered_lists_scenarios :
    get_unclaimed_list sourcesC8 =
      String.intercalate "\n"
        [unclaimed_list_entry 4 "s1", unclaimed_list_entry 2 "s2",
         unclaimed_list_entry 1 "s3"] ∧
    get_claimed_list claimedC8 [] =
      Except.ok (String.intercalate "\n"
        [claimed_list_entry "u/1" "s1" "t1" (get_discord_time_str 1 "R"),
         claimed_list_entry "u/2" "s2" "t2" (get_discord_time_str 2 "R"),
         claimed_list_entry "u/3" "s3" "t3" (get_discord_time_str 3 "R"),
         claimed_list_entry "u/4" "s4" "t4" (get_discord_time_str 4 "R"),
         claimed_list_entry "u/5" "s5" "t5" (get_discord_time_str 5 "R")] ++
        "\n" ++ claimed_list_others 1) := by decide

/-- When the first n pages are ok and full and the page after them is ok and
short, the fetch loop returns the issued requests, pages one through n plus
one, and the concatenation of the normalized pages in page order. -/
theorem fetchLoop_ok (api : SubmissionRequest → PageResponse) (mkReq : Nat → SubmissionRequest) :
    ∀ (n page fuel : Nat) (reqs : List SubmissionRequest) (acc : List Submission),
      (∀ j, page ≤ j → j < page + n →
        (api (mkReq j)).ok = true ∧ 500 ≤ (api (mkReq j)).results.length) →
      (api (mkReq (page + n))).ok = true →
      (api (mkReq (page + n))).results.length < 500 →
      n + 1 ≤ fuel →
      fetchLoop api mkReq 500 fuel page reqs acc =
        some (Except.ok (reqs ++ (List.range' page (n + 1)).map mkReq,
          acc ++ pagesJoin api mkReq page (n + 1))) := by
  intro n
  induction n with
  | zero =>
    intro page fuel reqs acc _hfull hok hshort hfuel
    match fuel, hfuel with
    | fuel + 1, _ =>
      simp only [Nat.add_zero] at hok hshort
      simp [fetchLoop, hok, hshort, pagesJoin, List.range']
  | succ n ih =>
    intro page fuel reqs acc hfull hok hshort hfuel
    match fuel, hfuel with
    | fuel + 1, hfuel =>
      have hpage := hfull page (Nat.le_refl page) (by omega)
      have hrec := ih (page + 1) fuel (reqs ++ [mkReq page])
        (acc ++ (api (mkReq page)).results.map fix_submission_source)
        (fun j h1 h2 => hfull j (by omega) (by omega))
        (by have : page + 1 + n = page + (n + 1) := by omega
            rw [this]; exact hok)
        (by have : page + 1 + n = page + (n + 1) := by omega
            rw [this]; exact hshort)
        (by omega)
      simp only [fetchLoop, hpage.1, List.length_map]
      rw [if_neg (by simp), if_neg (by omega)]
      rw [hrec]
      have hr : List.range' page (n + 1 + 1) = page :: List.range' (page + 1) (n + 1) :=
        List.range'_succ page (n + 1) 1
      simp [pagesJoin, hr]

/-- When the first n pages are ok and full and the page after them answers
non ok, the fetch loop raises the BlossomException carrying that response. -/
theorem fetchLoop_error (api : SubmissionRequest → PageResponse) (mkReq : Nat → SubmissionRequest) :
    ∀ (n page fuel : Nat) (reqs : List SubmissionRequest) (acc : List Submission),
      (∀ j, page ≤ j → j < page + n →
        (api (mkReq j)).ok = true ∧ 500 ≤ (api (mkReq j)).results.length) →
      (api (mkReq (page + n))).ok = false →
      n + 1 ≤ fuel →
      fetchLoop api mkReq 500 fuel page reqs acc =
        some (Except.error (PyErr.blossomExceptionPage (api (mkReq (page + n))))) := by
  intro n
  induction n with
  | zero =>
    intro page fuel reqs acc _hfull hbad hfuel
    match fuel, hfuel with
    | fuel + 1, _ =>
      simp only [Nat.add_zero] at hbad
      simp [fetchLoop, hbad]
  | succ n ih =>
    intro page fuel reqs acc hfull hbad hfuel
    match fuel, hfuel with
    | fuel + 1, hfuel =>
      have hpage := hfull page (Nat.le_refl page) (by omega)
      have hrec := ih (page + 1) fuel (reqs ++ [mkReq page])
        (acc ++ (api (mkReq page)).results.map fix_submission_source)
        (fun j h1 h2 => hfull j (by omega) (by omega))
        (by have : page + 1 + n = page + (n + 1) := by omega
            rw [this]; exact hbad)
        (by omega)
      simp only [fetchLoop, hpage.1, List.length_map]
      rw [if_neg (by simp), if_neg (by omega)]
      rw [hrec]
      have : page + 1 + n = page + (n + 1) := by omega
      rw [this]

/-- Building the id indexed frame from a nonempty record list succeeds with
exactly those rows. -/
theorem from_records_ne (l : List Submission) (h : l ≠ []) :
    from_records l = Except.ok { rows := l } := by
  cases l with
  | nil => exact absurd rfl h
  | cons a t => rfl

/-- C5: if a page request during a paginated fetch answers non ok, after the
preceding pages were ok and full, the fetch raises the BlossomException
carrying that response and returns no partial record sequence; this holds
for the unclaimed fetch and for the claimed fetch. -/
theorem paginated_fetch_non_ok_raises (api : Blossom) (now fuel n m : Nat) :
    ((∀ j, 1 ≤ j → j < 1 + n →
        (api.submissions (unclaimedRequest (now - 18 * 3600) j)).ok = true ∧
        500 ≤ (api.submissions (unclaimedRequest (now - 18 * 3600) j)).results.length) →
      (api.submissions (unclaimedRequest (now - 18 * 3600) (1 + n))).ok = false →
      n + 1 ≤ fuel →
      get_unclaimed_submissions api now fuel =
        some (Except.error (PyErr.blossomExceptionPage
          (api.submissions (unclaimedRequest (now - 18 * 3600) (1 + n)))))) ∧
    ((∀ j, 1 ≤ j → j < 1 + m →
        (api.submissions (claimedRequest (now - 48 * 3600) j)).ok = true ∧
        500 ≤ (api.submissions (claimedRequest (now - 48 * 3600) j)).results.length) →
      (api.submissions (claimedRequest (now - 48 * 3600) (1 + m))).ok = false →
      m + 1 ≤ fuel →
      get_claimed_submissions api now fuel =
        some (Except.error (PyErr.blossomExceptionPage
          (api.submissions (claimedRequest (now - 48 * 3600) (1 + m)))))) := by
  constructor
  · intro hfull hbad hfuel
    have h := fetchLoop_error api.submissions (unclaimedRequest (now - 18 * 3600))
      n 1 fuel [] [] hfull hbad hfuel
    simp only [get_unclaimed_submissions]
    rw [h]
  · intro hfull hbad hfuel
    have h := fetchLoop_error api.submissions (claimedRequest (now - 48 * 3600))
      m 1 fuel [] [] hfull hbad hfuel
    simp only [get_claimed_submissions]
    rw [h]

/-- C5 witness: against a remote answering non ok to the very first page,
both fetches raise the BlossomException carrying that response. -/
theorem paginated_fetch_non_ok_raises_witness :
    get_unclaimed_submissions apiW5 0 1 =
      some (Except.error (PyErr.blossomExceptionPage { ok := false, results := [] })) ∧
    get_claimed_submissions apiW5 0 1 =
      some (Except.error (PyErr.blossomExceptionPage { ok := false, results := [] })) :=
  ⟨(paginated_fetch_non_ok_raises apiW5 0 1 0 0).1
      (fun j h1 h2 => absurd h2 (Nat.not_lt.mpr h1)) (by decide) (by decide),
   (paginated_fetch_non_ok_raises apiW5 0 1 0 0).2
      (fun j h1 h2 => absurd h2 (Nat.not_lt.mpr h1)) (by decide) (by decide)⟩

/-- C4 counterexample: against a remote that serves pages normally but whose
first page is empty, the fetch does not return the (empty) concatenation of
the returned pages: building the id indexed table raises KeyError, so the
claim as stated fails on this input. -/
theorem paginated_fetch_empty_page_keyerror :
    get_unclaimed_submissions apiC3 0 1 = some (Except.error (PyErr.keyError "id")) ∧
    get_unclaimed_submissions apiC3 0 1 ≠ some (Except.ok { rows := [] }) := by decide

/-- C4 amended: provided the concatenation of the served pages is nonempty,
the paginated fetch issues requests with page numbers one, two, three and so
on and page size 500, stops after the first page with fewer than 500
records, and returns exactly the concatenation of the normalized pages in
page order; for the unclaimed fetch and the claimed fetch alike. -/
theorem paginated_fetch_concatenates_pages (api : Blossom) (now fuel n m : Nat) :
    ((∀ j, 1 ≤ j → j < 1 + n →
        (api.submissions (unclaimedRequest (now - 18 * 3600) j)).ok = true ∧
        500 ≤ (api.submissions (unclaimedRequest (now - 18 * 3600) j)).results.length) →
      (api.submissions (unclaimedRequest (now - 18 * 3600) (1 + n))).ok = true →
      (api.submissions (unclaimedRequest (now - 18 * 3600) (1 + n))).results.length < 500 →
      n + 1 ≤ fuel →
      pagesJoin api.submissions (unclaimedRequest (now - 18 * 3600)) 1 (n + 1) ≠ [] →
      fetchLoop api.submissions (unclaimedRequest (now - 18 * 3600)) 500 fuel 1 [] [] =
        some (Except.ok ((List.range' 1 (n + 1)).map (unclaimedRequest (now - 18 * 3600)),
          pagesJoin api.submissions (unclaimedRequest (now - 18 * 3600)) 1 (n + 1))) ∧
      ((List.range' 1 (n + 1)).map (unclaimedRequest (now - 18 * 3600))).map
          SubmissionRequest.page = List.range' 1 (n + 1) ∧
      (∀ r ∈ (List.range' 1 (n + 1)).map (unclaimedRequest (now - 18 * 3600)),
        r.page_size = 500) ∧
      get_unclaimed_submissions api now fuel =
        some (Except.ok (Table.mk
          (pagesJoin api.submissions (unclaimedRequest (now - 18 * 3600)) 1 (n + 1))))) ∧
    ((∀ j, 1 ≤ j → j < 1 + m →
        (api.submissions (claimedRequest (now - 48 * 3600) j)).ok = true ∧
        500 ≤ (api.submissions (claimedRequest (now - 48 * 3600) j)).results.length) →
      (api.submissions (claimedRequest (now - 48 * 3600) (1 + m))).ok = true →
      (api.submissions (claimedRequest (now - 48 * 3600) (1 + m))).results.length < 500 →
      m + 1 ≤ fuel →
      pagesJoin api.submissions (claimedRequest (now - 48 * 3600)) 1 (m + 1) ≠ [] →
      fetchLoop api.submissions (claimedRequest (now - 48 * 3600)) 500 fuel 1 [] [] =
        some (Except.ok ((List.range' 1 (m + 1)).map (claimedRequest (now - 48 * 3600)),
          pagesJoin api.submissions (claimedRequest (now - 48 * 3600)) 1 (m + 1))) ∧
      ((List.range' 1 (m + 1)).map (claimedRequest (now - 48 * 3600))).map
          SubmissionRequest.page = List.range' 1 (m + 1) ∧
      (∀ r ∈ (List.range' 1 (m + 1)).map (claimedRequest (now - 48 * 3600)),
        r.page_size = 500) ∧
      get_claimed_submissions api now fuel =
        some (Except.ok (Table.mk
          (pagesJoin api.submissions (claimedRequest (now - 48 * 3600)) 1 (m + 1))))) := by
  constructor
  · intro hfull hok hshort hfuel hne
    have h := fetchLoop_ok api.submissions (unclaimedRequest (now - 18 * 3600))
      n 1 fuel [] [] hfull hok hshort hfuel
    simp only [List.nil_append] at h
    refine ⟨h, ?_, ?_, ?_⟩
    · simp [List.map_map, Function.comp_def, unclaimedRequest]
    · intro r hr
      simp only [List.mem_map] at hr
      obtain ⟨j, _, rfl⟩ := hr
      rfl
    · simp only [get_unclaimed_submissions]
      rw [h]
      exact congrArg some (from_records_ne _ hne)
  · intro hfull hok hshort hfuel hne
    have h := fetchLoop_ok api.submissions (claimedRequest (now - 48 * 3600))
      m 1 fuel [] [] hfull hok hshort hfuel
    simp only [List.nil_append] at h
    refine ⟨h, ?_, ?_, ?_⟩
    · simp [List.map_map, Function.comp_def, claimedRequest]
    · intro r hr
      simp only [List.mem_map] at hr
      obtain ⟨j, _, rfl⟩ := hr
      rfl
    · simp only [get_claimed_submissions]
      rw [h]
      exact congrArg some (from_records_ne _ hne)

/-- C4 witness: against a remote serving one short nonempty ok page per
fetch, both fetches return exactly that page, normalized. -/
theorem paginated_fetch_concatenates_pages_witness :
    get_unclaimed_submissions apiW4 0 1 =
      some (Except.ok (Table.mk [fix_submission_source subW1])) ∧
    get_claimed_submissions apiW4 0 1 =
      some (Except.ok (Table.mk [fix_submission_source subClaimedW])) :=
  ⟨((paginated_fetch_concatenates_pages apiW4 0 1 0 0).1
      (fun j h1 h2 => absurd h2 (Nat.not_lt.mpr h1))
      (by decide) (by decide) (by decide) (by decide)).2.2.2,
   ((paginated_fetch_concatenates_pages apiW4 0 1 0 0).2
      (fun j h1 h2 => absurd h2 (Nat.not_lt.mpr h1))
      (by decide) (by decide) (by decide) (by decide)).2.2.2⟩

/-- C2 amended: when pushing the snapshot to one target fails, the failure
propagates out of the broadcast and aborts the iteration: exactly the
targets registered before the failing one are updated, and the failing
target and all later ones are not. -/
theorem broadcast_failure_stops_iteration (s : QueueState) (pre post : List Target)
    (t : Target) (e : PyErr)
    (hm : s.messages = pre ++ t :: post)
    (hpre : ∀ msg ∈ pre, exceptOk (update_message s msg) = true)
    (ht : update_message s t = Except.error e) :
    update_messages s = (pre, some e) := by
  have key : ∀ pre2 : List Target,
      (∀ msg ∈ pre2, exceptOk (update_message s msg) = true) →
      update_messages_go s (pre2 ++ t :: post) = (pre2, some e) := by
    intro pre2
    induction pre2 with
    | nil =>
      intro _
      simp [update_messages_go, ht]
    | cons msg rest ih =>
      intro hp
      have hmsg := hp msg (List.mem_cons_self msg rest)
      have h2 : ∀ m2 ∈ rest, exceptOk (update_message s m2) = true :=
        fun m2 hm2 => hp m2 (List.mem_cons_of_mem msg hm2)
      cases hres : update_message s msg with
      | error e2 => rw [hres] at hmsg; simp [exceptOk] at hmsg
      | ok r =>
        simp only [List.cons_append, update_messages_go, hres, List.append_eq]
        rw [ih h2]
  rw [update_messages, hm]
  exact key pre hpre

/-- C2 amended witness: in the three target state of the counterexample,
the broadcast updates exactly the first target and stops with the error of
the second. -/
theorem broadcast_failure_stops_iteration_witness :
    update_messages gsC2 = ([tOk1], some (PyErr.notFound "message")) :=
  broadcast_failure_stops_iteration gsC2 [tOk1] [tOk3] tBad (PyErr.notFound "message")
    (by decide) (by decide) (by decide)

/-- C7: starting from an empty registry, any sequence of register calls
leaves at most five targets, and registering into a registry already holding
five targets appends the new target and drops exactly the oldest one,
preserving the order of the remaining four. -/
theorem live_target_registry_bounded_fifo (s0 sFull : QueueState) (ts : List Target)
    (m : Target) (h0 : s0.messages = []) (h5 : sFull.messages.length = 5) :
    (ts.foldl add_message s0).messages.length ≤ 5 ∧
    (add_message sFull m).messages = sFull.messages.tail ++ [m] := by
  constructor
  · have step : ∀ (s : QueueState) (x : Target), (add_message s x).messages.length ≤ 5 := by
      intro s x
      simp only [add_message, List.length_append, List.length_drop, List.length_cons,
        List.length_nil]
      omega
    have key : ∀ (l : List Target) (s : QueueState), s.messages.length ≤ 5 →
        (l.foldl add_message s).messages.length ≤ 5 := by
      intro l
      induction l with
      | nil => intro s h; simpa using h
      | cons x xs ih =>
        intro s h
        simpa [List.foldl_cons] using ih (add_message s x) (step s x)
    exact key ts s0 (by rw [h0]; simp)
  · have hdrop : (add_message sFull m).messages = sFull.messages.drop 1 ++ [m] := by
      simp [add_message, h5]
    rw [hdrop, List.drop_one]

/-- C7 witness: seven registrations from the initial state leave at most
five targets, and registering a sixth target into a full registry of five
drops the oldest and appends the new one. -/
theorem live_target_registry_bounded_fifo_witness :
    (tsW.foldl add_message (initState 0)).messages.length ≤ 5 ∧
    (add_message sFullW mW).messages = sFullW.messages.tail ++ [mW] :=
  live_target_registry_bounded_fifo (initState 0) sFullW tsW mW (by decide) (by decide)

/-- The keys of the empty cache. -/
theorem dictKeys_nil : dictKeys [] = [] := rfl

/-- The keys of a nonempty cache. -/
theorem dictKeys_cons (p : String × User) (d : UserCache) :
    dictKeys (p :: d) = p.1 :: dictKeys d := rfl

/-- Assignment adds exactly the assigned key to the key set. -/
theorem mem_keys_dictSet (d : UserCache) (k : String) (v : User) (a : String) :
    a ∈ dictKeys (dictSet d k v) ↔ a ∈ dictKeys d ∨ a = k := by
  induction d with
  | nil => simp [dictSet, dictKeys]
  | cons q rest ih =>
    simp only [dictSet]
    by_cases hq : q.1 = k
    · rw [if_pos hq]
      subst hq
      simp only [dictKeys_cons, List.mem_cons]
      tauto
    · rw [if_neg hq]
      simp only [dictKeys_cons, List.mem_cons]
      rw [ih]
      tauto

/-- The assigned key is a key of the updated cache. -/
theorem mem_keys_dictSet_self (d : UserCache) (k : String) (v : User) :
    k ∈ dictKeys (dictSet d k v) :=
  (mem_keys_dictSet d k v k).mpr (Or.inr rfl)

/-- Assignment preserves distinctness of the keys. -/
theorem nodup_keys_dictSet (d : UserCache) (k : String) (v : User)
    (h : (dictKeys d).Nodup) : (dictKeys (dictSet d k v)).Nodup := by
  induction d with
  | nil => simp [dictSet, dictKeys]
  | cons q rest ih =>
    simp only [dictKeys_cons, List.nodup_cons] at h
    simp only [dictSet]
    by_cases hq : q.1 = k
    · rw [if_pos hq]
      subst hq
      simp only [dictKeys_cons, List.nodup_cons]
      exact h
    · rw [if_neg hq]
      simp only [dictKeys_cons, List.nodup_cons]
      refine ⟨?_, ih h.2⟩
      rw [mem_keys_dictSet]
      rintro (hc | hc)
      · exact h.1 hc
      · exact hq hc

/-- An entry of the updated cache is the assigned entry or an entry of the
old cache at a different key, when the keys are distinct. -/
theorem mem_dictSet (d : UserCache) (k : String) (v : User) (p : String × User)
    (hnd : (dictKeys d).Nodup) (h : p ∈ dictSet d k v) :
    p = (k, v) ∨ (p ∈ d ∧ p.1 ≠ k) := by
  induction d with
  | nil =>
    simp [dictSet] at h
    left
    exact h
  | cons q rest ih =>
    simp only [dictKeys_cons, List.nodup_cons] at hnd
    simp only [dictSet] at h
    by_cases hq : q.1 = k
    · rw [if_pos hq] at h
      rcases List.mem_cons.mp h with h1 | h1
      · left; exact h1
      · right
        refine ⟨List.mem_cons_of_mem q h1, ?_⟩
        intro hk
        apply hnd.1
        rw [← hq] at hk
        rw [← hk]
        exact List.mem_map_of_mem (fun p => p.1) h1
    · rw [if_neg hq] at h
      rcases List.mem_cons.mp h with h1 | h1
      · right
        refine ⟨by rw [h1]; exact List.mem_cons_self q rest, ?_⟩
        rw [h1]
        exact hq
      · rcases ih hnd.2 h1 with h2 | h2
        · left; exact h2
        · right; exact ⟨List.mem_cons_of_mem q h2.1, h2.2⟩

/-- Assignment grows the cache by at most one entry. -/
theorem length_dictSet_le (d : UserCache) (k : String) (v : User) :
    (dictSet d k v).length ≤ d.length + 1 := by
  induction d with
  | nil => simp [dictSet]
  | cons q rest ih =>
    simp only [dictSet]
    by_cases hq : q.1 = k
    · rw [if_pos hq]; simp
    · rw [if_neg hq]
      simp only [List.length_cons]
      omega

/-- Assigning an existing key keeps the cache size unchanged. -/
theorem length_dictSet_mem (d : UserCache) (k : String) (v : User)
    (h : k ∈ dictKeys d) : (dictSet d k v).length = d.length := by
  induction d with
  | nil => simp [dictKeys] at h
  | cons q rest ih =>
    simp only [dictKeys_cons, List.mem_cons] at h
    simp only [dictSet]
    by_cases hq : q.1 = k
    · rw [if_pos hq]; simp
    · rw [if_neg hq]
      simp only [List.length_cons]
      rcases h with h1 | h1
      · exact absurd h1.symm hq
      · rw [ih h1]

/-- The carry forward step preserves distinctness of the keys. -/
theorem nodup_keys_carryOld (old cache : UserCache) (k : String)
    (h : (dictKeys cache).Nodup) : (dictKeys (carryOld old cache k)).Nodup := by
  unfold carryOld
  cases dictGet old k with
  | none => exact h
  | some u => exact nodup_keys_dictSet cache k u h

/-- The keys after the carry forward plus overwrite step are the previous
keys plus the claimant key. -/
theorem keys_dictSet_carryOld (old cache : UserCache) (k : String) (v : User) (a : String) :
    a ∈ dictKeys (dictSet (carryOld old cache k) k v) ↔ a ∈ dictKeys cache ∨ a = k := by
  rw [mem_keys_dictSet]
  unfold carryOld
  cases dictGet old k with
  | none => tauto
  | some u =>
    rw [mem_keys_dictSet]
    tauto

/-- The carry forward plus overwrite step grows the cache by at most one
entry: the placeholder, if inserted, is overwritten in place. -/
theorem length_dictSet_carryOld (old cache : UserCache) (k : String) (v : User) :
    (dictSet (carryOld old cache k) k v).length ≤ cache.length + 1 := by
  unfold carryOld
  cases dictGet old k with
  | none => exact length_dictSet_le cache k v
  | some u =>
    rw [length_dictSet_mem _ _ _ (mem_keys_dictSet_self cache k u)]
    exact length_dictSet_le cache k u

/-- An entry after the carry forward plus overwrite step is the freshly
written entry or an untouched entry at a different key. -/
theorem mem_dictSet_carryOld (old cache : UserCache) (k : String) (v : User)
    (p : String × User) (hnd : (dictKeys cache).Nodup)
    (h : p ∈ dictSet (carryOld old cache k) k v) :
    p = (k, v) ∨ (p ∈ cache ∧ p.1 ≠ k) := by
  unfold carryOld at h
  cases hg : dictGet old k with
  | none =>
    rw [hg] at h
    exact mem_dictSet cache k v p hnd h
  | some u =>
    rw [hg] at h
    rcases mem_dictSet (dictSet cache k u) k v p (nodup_keys_dictSet cache k u hnd) h with
      h1 | ⟨h1, h2⟩
    · left; exact h1
    · rcases mem_dictSet cache k u p hnd h1 with h3 | h3
      · exact absurd (by rw [h3]) h2
      · right; exact h3

/-- Invariant of the user cache rebuild loop: on success the keys stay
distinct, every entry holds the freshly fetched user of its key, the size
grows by at most the number of processed submissions, and the key set is
the previous key set plus the extracted claimant ids of the processed
submissions. -/
theorem update_user_cache_go_spec (volunteer : String → UserResponse) (old : UserCache) :
    ∀ (l : List Submission) (cache new : UserCache),
      update_user_cache_go volunteer old l cache = Except.ok new →
      (dictKeys cache).Nodup →
      (∀ p ∈ cache, (volunteer p.1).ok = true ∧ (volunteer p.1).results.head? = some p.2) →
      (dictKeys new).Nodup ∧
      (∀ p ∈ new, (volunteer p.1).ok = true ∧ (volunteer p.1).results.head? = some p.2) ∧
      new.length ≤ cache.length + l.length ∧
      (∀ a, a ∈ dictKeys new ↔ (a ∈ dictKeys cache ∨
        ∃ s ∈ l, ∃ cb, s.claimed_by = some cb ∧ extract_user_id cb = Except.ok a)) := by
  intro l
  induction l with
  | nil =>
    intro cache new h hnd hfresh
    simp only [update_user_cache_go] at h
    injection h with h
    subst h
    exact ⟨hnd, hfresh, by simp, fun a => by simp⟩
  | cons s rest ih =>
    intro cache new h hnd hfresh
    simp only [update_user_cache_go] at h
    cases hcb : s.claimed_by with
    | none => simp [hcb] at h
    | some cb =>
      simp only [hcb] at h
      cases hex : extract_user_id cb with
      | error e => simp [hex] at h
      | ok uid =>
        simp only [hex] at h
        by_cases hvo : (volunteer uid).ok = false
        · simp [hvo] at h
        · rw [if_neg hvo] at h
          have hok : (volunteer uid).ok = true := by
            revert hvo; cases (volunteer uid).ok <;> simp
          cases hres : (volunteer uid).results with
          | nil => simp [hres] at h
          | cons user us =>
            simp only [hres] at h
            have hnd2 : (dictKeys (dictSet (carryOld old cache uid) uid user)).Nodup :=
              nodup_keys_dictSet _ _ _ (nodup_keys_carryOld old cache uid hnd)
            have hfresh2 : ∀ p ∈ dictSet (carryOld old cache uid) uid user,
                (volunteer p.1).ok = true ∧ (volunteer p.1).results.head? = some p.2 := by
              intro p hp
              rcases mem_dictSet_carryOld old cache uid user p hnd hp with h1 | ⟨h1, _⟩
              · rw [h1]
                exact ⟨hok, by rw [hres]; rfl⟩
              · exact hfresh p h1
            obtain ⟨knd, kfresh, klen, kkeys⟩ := ih _ new h hnd2 hfresh2
            refine ⟨knd, kfresh, ?_, ?_⟩
            · have hl := length_dictSet_carryOld old cache uid user
              simp only [List.length_cons]
              omega
            · intro a
              rw [kkeys a, keys_dictSet_carryOld]
              constructor
              · rintro ((h1 | h1) | h1)
                · exact Or.inl h1
                · refine Or.inr ⟨s, List.mem_cons_self s rest, cb, hcb, ?_⟩
                  rw [h1]
                  exact hex
                · obtain ⟨s2, hs2, cb2, hcb2, hex2⟩ := h1
                  exact Or.inr ⟨s2, List.mem_cons_of_mem s hs2, cb2, hcb2, hex2⟩
              · rintro (h1 | h1)
                · exact Or.inl (Or.inl h1)
                · obtain ⟨s2, hs2, cb2, hcb2, hex2⟩ := h1
                  rcases List.mem_cons.mp hs2 with h2 | h2
                  · subst h2
                    rw [hcb] at hcb2
                    injection hcb2 with h3
                    subst h3
                    rw [hex] at hex2
                    injection hex2 with h4
                    exact Or.inl (Or.inr h4.symm)
                  · exact Or.inr ⟨s2, h2, cb2, hcb2, hex2⟩

/-- C6: after every successful rebuild the user cache has at most five
entries, with exactly one entry per distinct claimant id extracted from the
first five submissions of the claimed table (distinct keys, and a key is
present exactly when it is such a claimant id), and every entry holds the
freshly fetched user info for its id. -/
theorem user_cache_rebuild_spec (volunteer : String → UserResponse) (claimed : Table)
    (old_cache new_cache : UserCache)
    (h : update_user_cache volunteer claimed old_cache = Except.ok new_cache) :
    new_cache.length ≤ 5 ∧
    (dictKeys new_cache).Nodup ∧
    (∀ p ∈ new_cache, (volunteer p.1).ok = true ∧
      (volunteer p.1).results.head? = some p.2) ∧
    (∀ a, a ∈ dictKeys new_cache ↔
      ∃ s ∈ claimed.rows.take 5, ∃ cb, s.claimed_by = some cb ∧
        extract_user_id cb = Except.ok a) := by
  obtain ⟨knd, kfresh, klen, kkeys⟩ :=
    update_user_cache_go_spec volunteer old_cache (claimed.rows.take 5) [] new_cache h
      (by simp [dictKeys]) (by simp)
  refine ⟨?_, knd, kfresh, ?_⟩
  · have htake : (claimed.rows.take 5).length ≤ 5 := List.length_take_le 5 claimed.rows
    simp only [List.length_nil] at klen
    omega
  · intro a
    rw [kkeys a]
    simp [dictKeys]

/-- C6 witness: rebuilding a cache with a stale entry against a claimed
table whose first five submissions name two distinct claimants yields the
two entry cache of freshly fetched users. -/
theorem user_cache_rebuild_spec_witness :
    update_user_cache volW claimedW oldW = Except.ok newW ∧
    newW.length ≤ 5 ∧ (dictKeys newW).Nodup :=
  ⟨by decide, (user_cache_rebuild_spec volW claimedW oldW newW (by decide)).1,
   (user_cache_rebuild_spec volW claimedW oldW newW (by decide)).2.1⟩
